import Mathlib

/-!
Shallow embedding of the real-time proctoring alert pipeline of the
Exam-moniter repository (backend/main.py, backend/ai_service.py,
backend/models.py), together with theorems settling the specification
claims about it.

Conventions of the embedding:
* Python dictionaries keyed by session id become total functions
  `Nat → Option _` (absent key = `none`); the good-behavior counter
  dictionary becomes a total function `Nat → Nat` defaulting to 0,
  matching the source which initialises missing keys to 0.
* Timestamps and classifier confidences are rationals; severities and
  scores are integers, as in the SQL schema (Integer columns).
* The classifier payload (a parsed JSON object) is modelled as a record
  of optional typed fields; a field that is absent in the JSON is `none`.
* Socket emissions are collected in an ordered list, in the exact order
  the source awaits them.
* External blob storage (upload_screenshot) returns a URL or None and
  swallows its own errors (storage_service.py); the evidence reference
  has no influence on any state transition and is omitted from the
  event record.
* Database commit/rollback: an exception raised before db.commit()
  discards the pending inserts and updates of that handler; the
  embedding reproduces the resulting net effect path by path.
* AIProctorService.analyze_frame dispatches on USE_OLLAMA (default
  "true"); the embedded pipeline is the Ollama branch
  (_analyze_with_ollama), the normalizing path the spec describes.
-/

namespace ExamMonitor

/-- Parsed raw classifier JSON payload (fields of uncertain presence),
as consumed by ai_service.py lines 258-279. -/
structure RawAnalysis where
  is_suspicious : Option Bool
  confidence : Option ℚ
  severity : Option Int
  detected_issues : Option (List String)
  description : Option String
  alert_type : Option String
  deriving DecidableEq

/-- Result of one classifier invocation as seen by _analyze_with_ollama:
either a parsed JSON payload, or a transport error / timeout /
unparsable-output failure carrying an error message. -/
inductive ClassifierResult where
  | ok (raw : RawAnalysis)
  | err (msg : String)

/-- Normalized analysis record, the shape built at
ai_service.py lines 272-279. -/
structure Analysis where
  is_suspicious : Bool
  confidence : ℚ
  severity : Int
  detected_issues : List String
  description : String
  alert_type : String
  deriving DecidableEq

/-- Closed enumeration of alert kinds accepted by the normalizer
(ai_service.py lines 259-260). -/
def validAlertTypes : List String :=
  ["looking_away", "multiple_people", "phone_detected",
   "reading_from_material", "suspicious_activity", "none"]

/-- Member names of the AlertType enum (models.py lines 18-24); note the
enum has no NONE member, which is why main.py filters "none" first. -/
def alertTypeEnumNames : List String :=
  ["looking_away", "multiple_people", "phone_detected",
   "reading_from_material", "tab_switch", "suspicious_activity"]

/-- Normalization of a parsed classifier payload,
ai_service.py lines 258-279. -/
def normalize (raw : RawAnalysis) : Analysis :=
  let alertType0 := raw.alert_type.getD "none"
  let alertType := if alertType0 ∈ validAlertTypes then alertType0 else "none"
  { is_suspicious := raw.is_suspicious.getD false
    confidence := max 0 (min 1 (raw.confidence.getD (1/2)))
    severity := max 1 (min 5 (raw.severity.getD 1))
    detected_issues := raw.detected_issues.getD []
    description := (raw.description.getD "Analysis completed").take 500
    alert_type := alertType }

/-- Dictionary returned by _analyze_with_ollama together with the
suspicion verdict: on success the normalized fields (all present), on
failure the fail-closed record of lines 293-297 / 300-304 whose only
populated keys are error, is_suspicious and confidence. -/
structure AnalysisResult where
  error : Option String
  is_suspicious : Bool
  confidence : ℚ
  severity : Option Int
  detected_issues : List String
  description : Option String
  alert_type : Option String
  deriving DecidableEq

/-- Embedding of AIProctorService._analyze_with_ollama
(ai_service.py lines 204-304): normalize the payload and compute
is_suspicious = payload verdict AND confidence >= threshold; on any
transport error or unparsable output return (False, error record). -/
def analyzeWithOllama (cls : ClassifierResult) (thr : ℚ) : Bool × AnalysisResult :=
  match cls with
  | .err msg =>
      (false,
       { error := some msg, is_suspicious := false, confidence := 0,
         severity := none, detected_issues := [], description := none,
         alert_type := none })
  | .ok raw =>
      let a := normalize raw
      let isSusp := a.is_suspicious && decide (thr ≤ a.confidence)
      (isSusp,
       { error := none, is_suspicious := a.is_suspicious,
         confidence := a.confidence, severity := some a.severity,
         detected_issues := a.detected_issues,
         description := some a.description,
         alert_type := some a.alert_type })

/-- One ExamSession row (models.py lines 100-113), restricted to the
columns the pipeline reads or writes. -/
structure SessionRec where
  exam_id : Nat
  student_id : Nat
  is_submitted : Bool
  auto_submitted : Bool
  end_time : Option ℚ
  cheating_score : Int
  total_alerts : Nat
  deriving DecidableEq

/-- One MonitoringEvent row (models.py lines 155-166); the evidence URL
is produced by external storage and carries no state influence, so it
is omitted. -/
structure EventRec where
  session_id : Nat
  event_type : String
  confidence : ℚ
  severity : Int
  description : String
  deriving DecidableEq

/-- Exam columns read by the pipeline and by submit_exam
(models.py lines 43-58). The exam id of a session is a foreign key, so
the exam lookup of main.py line 253 is modelled as total. -/
structure ExamRec where
  cheating_threshold : Int
  passing_score : ℚ
  deriving DecidableEq

/-- One Submission row (models.py lines 135-147). -/
structure SubmissionRec where
  id : Nat
  session_id : Nat
  student_id : Nat
  exam_id : Nat
  total_score : ℚ
  max_score : ℚ
  percentage : ℚ
  is_passed : Bool
  graded : Bool
  deriving DecidableEq

/-- One Answer row (models.py lines 121-129). -/
structure AnswerRec where
  submission_id : Nat
  question_id : Nat
  answer_text : String
  is_correct : Bool
  points_earned : ℚ
  deriving DecidableEq

/-- Question columns read by submit_exam grading
(models.py lines 77-94); MCQ rows carry their correct answer. -/
structure QuestionRec where
  points : ℚ
  question_type : String
  correct_answer : String
  deriving DecidableEq

/-- Socket emissions of the two monitoring handlers, in source order.
Rooms for proctors are keyed by exam id (room proctor_examid). -/
inductive Emit where
  | positiveFeedback (socket : Nat) (sessionId : Nat) (streak : Nat)
  | cheatingWarning (socket : Nat) (sessionId : Nat)
  | examAutoSubmitted (socket : Nat) (sessionId : Nat)
  | cheatingAlert (examRoom : Nat) (sessionId : Nat)
  deriving DecidableEq

/-- Whole-server state: the three module-level dictionaries of main.py
(ongoing_analysis, good_behavior_count, active_sessions as socket ids)
plus the database tables the pipeline touches. -/
structure ServerState where
  ongoingAnalysis : Nat → Option ℚ
  goodBehaviorCount : Nat → Nat
  activeSessions : Nat → Option Nat
  sessions : Nat → Option SessionRec
  exams : Nat → ExamRec
  questions : Nat → Option QuestionRec
  events : List EventRec
  submissions : List SubmissionRec
  answers : List AnswerRec

/-- Throttle admission test of main.py lines 153-162: a frame is
rejected exactly when a marker for the session is present and less than
2.0 seconds old; on admission the marker is set to the current time. -/
def tryAdmit (last : Option ℚ) (now : ℚ) : Bool × Option ℚ :=
  match last with
  | some t => if now - t < 2 then (false, some t) else (true, some now)
  | none => (true, some now)

/-- Update of a Nat-keyed optional map at one key. -/
def setAt {α : Type} (m : Nat → Option α) (k : Nat) (v : Option α) :
    Nat → Option α :=
  fun n => if n = k then v else m n

/-- Good-behavior bookkeeping of main.py lines 171-200: reset the
counter on a violation; otherwise increment it and, every 15th
consecutive clean check, emit positive feedback to the student socket
when one is registered. -/
def goodBehaviorPhase (st : ServerState) (sid : Nat) (isSusp : Bool) :
    ServerState × List Emit :=
  if isSusp then
    ({ st with goodBehaviorCount := fun n => if n = sid then 0 else st.goodBehaviorCount n }, [])
  else
    let c := st.goodBehaviorCount sid + 1
    let st1 := { st with goodBehaviorCount := fun n => if n = sid then c else st.goodBehaviorCount n }
    if c % 15 = 0 then
      match st.activeSessions sid with
      | some sock => (st1, [Emit.positiveFeedback sock sid c])
      | none => (st1, [])
    else (st1, [])

/-- Student warning of main.py lines 239-250: sent to the student
socket when registered, dropped otherwise. -/
def warnEmitsOf (o : Option Nat) (sid : Nat) : List Emit :=
  match o with
  | some sock => [Emit.cheatingWarning sock sid]
  | none => []

/-- Termination notice of main.py lines 261-266: sent to the student
socket when registered, dropped otherwise. -/
def autoEmitsOf (o : Option Nat) (sid : Nat) : List Emit :=
  match o with
  | some sock => [Emit.examAutoSubmitted sock sid]
  | none => []

/-- Suspicious branch of analyze_frame (main.py lines 202-283): skip
alert kind "none" entirely; an alert kind outside the AlertType enum
raises KeyError before db.add, so nothing is committed; otherwise
append the MonitoringEvent and, when the session row exists, bump its
score and alert count, warn the student, auto-submit on threshold
crossing, commit, then broadcast to the proctor room. When the session
row is missing, the commit of line 268 has already persisted the event
before the proctor broadcast raises AttributeError. -/
def suspiciousPhase (st : ServerState) (sid : Nat) (analysis : AnalysisResult)
    (now : ℚ) : ServerState × List Emit :=
  let alertType := analysis.alert_type.getD "suspicious_activity"
  if alertType = "none" then (st, [])
  else if alertType ∉ alertTypeEnumNames then (st, [])
  else
    let ev : EventRec :=
      { session_id := sid, event_type := alertType,
        confidence := analysis.confidence,
        severity := analysis.severity.getD 3,
        description := analysis.description.getD "Suspicious activity detected" }
    let st1 := { st with events := st.events ++ [ev] }
    match st1.sessions sid with
    | none => (st1, [])
    | some s =>
        let s1 := { s with
          cheating_score := s.cheating_score + analysis.severity.getD 1,
          total_alerts := s.total_alerts + 1 }
        let warnEmits := warnEmitsOf (st1.activeSessions sid) sid
        let exam := st1.exams s1.exam_id
        let autoTrigger := exam.cheating_threshold ≤ s1.cheating_score ∧ s1.is_submitted = false
        let s2 :=
          if autoTrigger then
            { s1 with is_submitted := true, auto_submitted := true, end_time := some now }
          else s1
        let autoEmits :=
          if autoTrigger then autoEmitsOf (st1.activeSessions sid) sid else []
        let st2 := { st1 with sessions := setAt st1.sessions sid (some s2) }
        (st2, warnEmits ++ autoEmits ++ [Emit.cheatingAlert s2.exam_id sid])

/-- Embedding of the analyze_frame socket handler
(main.py lines 145-289): throttle, classify, clear the in-flight
marker, run the good-behavior counter, then the suspicious branch. -/
def analyzeFrame (st : ServerState) (sid : Nat) (cls : ClassifierResult)
    (now thr : ℚ) : ServerState × List Emit :=
  let adm := tryAdmit (st.ongoingAnalysis sid) now
  if adm.1 then
    let st1 := { st with ongoingAnalysis := setAt st.ongoingAnalysis sid adm.2 }
    let res := analyzeWithOllama cls thr
    let st2 := { st1 with ongoingAnalysis := setAt st1.ongoingAnalysis sid none }
    let g := goodBehaviorPhase st2 sid res.1
    if res.1 then
      let p := suspiciousPhase g.1 sid res.2 now
      (p.1, g.2 ++ p.2)
    else g
  else (st, [])

/-- Embedding of the tab_switch_detected socket handler
(main.py lines 291-340): record a fixed severity-2, confidence-1.0
event, bump the session score and alert count when the session row
exists, warn the student when connected, commit, then broadcast to the
proctor room. When the session row is missing, the commit of line 327
has persisted the event before the proctor broadcast raises. -/
def tabSwitch (st : ServerState) (sid : Nat) : ServerState × List Emit :=
  let ev : EventRec :=
    { session_id := sid, event_type := "tab_switch", confidence := 1,
      severity := 2, description := "Student switched browser tab or window" }
  let st1 := { st with events := st.events ++ [ev] }
  match st1.sessions sid with
  | none => (st1, [])
  | some s =>
      let s1 := { s with
        cheating_score := s.cheating_score + 2,
        total_alerts := s.total_alerts + 1 }
      let warnEmits :=
        match st1.activeSessions sid with
        | some sock => [Emit.cheatingWarning sock sid]
        | none => []
      let st2 := { st1 with sessions := setAt st1.sessions sid (some s1) }
      (st2, warnEmits ++ [Emit.cheatingAlert s1.exam_id sid])

/-- One externally triggered step of the monitoring pipeline. -/
inductive Step where
  | frame (sid : Nat) (cls : ClassifierResult) (now thr : ℚ)
  | tab (sid : Nat)

/-- Dispatch one step to its handler. -/
def step (st : ServerState) : Step → ServerState × List Emit
  | .frame sid cls now thr => analyzeFrame st sid cls now thr
  | .tab sid => tabSwitch st sid

/-- Run a sequence of steps, concatenating the emissions in order. -/
def run (st : ServerState) : List Step → ServerState × List Emit
  | [] => (st, [])
  | a :: rest =>
      let p := step st a
      let q := run p.1 rest
      (q.1, p.2 ++ q.2)

/-- Sum of the severities of the recorded events of one session. -/
def sessionEventsSum (events : List EventRec) (sid : Nat) : Int :=
  ((events.filter fun e => e.session_id = sid).map fun e => e.severity).sum

/-- Invariant tying each session score to its event history. -/
def ScoreInvariant (st : ServerState) : Prop :=
  ∀ sid s, st.sessions sid = some s →
    s.cheating_score = sessionEventsSum st.events sid

/-- Number of admissions among n simultaneous frame arrivals for one
session, processed sequentially from throttle marker state o, none of
the admitted analyses having completed yet. -/
def admitCountSim (o : Option ℚ) (now : ℚ) : Nat → Nat
  | 0 => 0
  | n + 1 =>
      let p := tryAdmit o now
      (if p.1 then 1 else 0) + admitCountSim p.2 now n

/-- MCQ grading comparison of main.py lines 690-693: case-insensitive,
whitespace-trimmed string equality; non-MCQ types are left ungraded. -/
def gradeAnswer (q : QuestionRec) (txt : String) : Bool × ℚ :=
  if q.question_type = "mcq" then
    if txt.trim.toUpper = q.correct_answer.trim.toUpper then (true, q.points)
    else (false, (0 : ℚ))
  else (false, (0 : ℚ))

/-- One answer of the submission request body (schemas AnswerCreate). -/
structure AnswerIn where
  question_id : Nat
  answer_text : String
  deriving DecidableEq

/-- Accumulator folding of main.py lines 679-707: skip answers whose
question is missing, otherwise accumulate earned points, maximum points
and the created Answer rows. -/
def foldAnswers (st : ServerState) (subId : Nat) (ans : List AnswerIn) :
    ℚ × ℚ × List AnswerRec :=
  ans.foldl
    (fun acc a =>
      match st.questions a.question_id with
      | none => acc
      | some q =>
          let g := gradeAnswer q a.answer_text
          (acc.1 + g.2, acc.2.1 + q.points,
           acc.2.2 ++ [{ submission_id := subId, question_id := a.question_id,
                         answer_text := a.answer_text, is_correct := g.1,
                         points_earned := g.2 }]))
    ((0 : ℚ), (0 : ℚ), ([] : List AnswerRec))

/-- Embedding of the submit_exam endpoint (main.py lines 633-723).
Errors (HTTPException paths) are raised before any mutation is
committed, so they carry no state; the fresh submission id models the
autoincrement primary key. -/
def submitExam (st : ServerState) (sessionId userId : Nat)
    (ans : List AnswerIn) (now : ℚ) : Except String (SubmissionRec × ServerState) :=
  match st.sessions sessionId with
  | none => .error "Session not found"
  | some s =>
      if s.student_id ≠ userId then .error "Access denied"
      else if s.is_submitted then
        match st.submissions.find? (fun sub => sub.session_id = sessionId) with
        | some sub => .ok (sub, st)
        | none => .error "Exam already submitted"
      else
        match st.submissions.find? (fun sub => sub.session_id = sessionId) with
        | some sub => .ok (sub, st)
        | none =>
            let subId := st.submissions.length + 1
            let exam := st.exams s.exam_id
            let folded := foldAnswers st subId ans
            let total := folded.1
            let maxScore := folded.2.1
            let pct := if 0 < maxScore then total / maxScore * 100 else 0
            let sub : SubmissionRec :=
              { id := subId, session_id := sessionId, student_id := userId,
                exam_id := s.exam_id, total_score := total,
                max_score := maxScore, percentage := pct,
                is_passed := decide (exam.passing_score ≤ pct), graded := true }
            let s1 := { s with is_submitted := true, end_time := some now }
            .ok (sub,
              { st with
                submissions := st.submissions ++ [sub],
                answers := st.answers ++ folded.2.2,
                sessions := setAt st.sessions sessionId (some s1) })

/-- Classification of emissions directed at the proctor room. -/
def isProctorAlert : Emit → Bool
  | .cheatingAlert _ _ => true
  | _ => false

/-- Classification of positive-feedback emissions. -/
def isFeedback : Emit → Bool
  | .positiveFeedback _ _ _ => true
  | _ => false

/-- Classification of auto-submission termination notices. -/
def isAutoSubmitNotice : Emit → Bool
  | .examAutoSubmitted _ _ => true
  | _ => false

/-- Ordering property of one handler emission list: a prefix free of
proctor broadcasts followed by a suffix of proctor broadcasts only, so
every student-facing message precedes every proctor broadcast. -/
def StudentBeforeProctor (l : List Emit) : Prop :=
  ∃ xs ys, l = xs ++ ys ∧ (∀ e ∈ xs, isProctorAlert e = false) ∧
    (∀ e ∈ ys, isProctorAlert e = true)

/-- Concrete session for scenario runs and witnesses: fresh attempt of
student 7 on exam 1. -/
def baseSession : SessionRec :=
  { exam_id := 1, student_id := 7, is_submitted := false,
    auto_submitted := false, end_time := none, cheating_score := 0,
    total_alerts := 0 }

/-- Concrete one-session server state for scenario runs and witnesses:
session 1 is live on socket 42, exam 1 has cheating threshold 10, all
counters are fresh and the event log is empty. -/
def baseState : ServerState :=
  { ongoingAnalysis := fun _ => none
    goodBehaviorCount := fun _ => 0
    activeSessions := fun n => if n = 1 then some 42 else none
    sessions := fun n => if n = 1 then some baseSession else none
    exams := fun _ => { cheating_threshold := 10, passing_score := 60 }
    questions := fun _ => none
    events := []
    submissions := []
    answers := [] }

/-- Clean classifier payload: nothing suspicious, alert kind "none". -/
def cleanRaw : RawAnalysis :=
  { is_suspicious := some false, confidence := some 1, severity := some 1,
    detected_issues := some [], description := some "focused",
    alert_type := some "none" }

/-- Suspicious classifier payload of a given severity, full confidence,
alert kind within the enumeration. -/
def suspRaw (sev : Int) : RawAnalysis :=
  { is_suspicious := some true, confidence := some 1, severity := some sev,
    detected_issues := some ["issue"], description := some "violation",
    alert_type := some "suspicious_activity" }

/-- Classifier payload asserting suspicion with an alert kind outside
the closed enumeration. -/
def bogusRaw : RawAnalysis :=
  { is_suspicious := some true, confidence := some 1, severity := some 3,
    detected_issues := some [], description := some "bogus",
    alert_type := some "bogus_value" }

/-- An in-flight admitted request keeps rejecting simultaneous
arrivals, leaving the marker unchanged. -/
lemma admitCountSim_inflight (now : ℚ) (n : Nat) :
    admitCountSim (some now) now n = 0 := by
  induction n with
  | zero => rfl
  | succ k ih =>
      have h : tryAdmit (some now) now = (false, some now) := by
        simp [tryAdmit]
      simp [admitCountSim, h, ih]

/-- Claim C1, counterexample to the stated throttle semantics: with an
analysis admitted for session at time 0 and still in flight (marker
present, never cleared), a second request arriving at time 5 is
admitted, because main.py lines 155-162 reject only when the marker is
present AND less than 2.0 seconds old; the claimed in-flight lock alone
(the OR semantics) does not reject it. -/
theorem C1_counterexample : (tryAdmit (some 0) 5).1 = true := by
  simp [tryAdmit]
  norm_num

/-- Claim C1 as amended: a frame-analysis request is rejected exactly
when a prior admitted request for the same session has its marker still
present AND less than 2.0 time-units have elapsed since that admitted
request started; consequently, of N simultaneous signal arrivals for
one session (none of whose analyses has completed), exactly one is
admitted. -/
theorem C1_throttle_amended :
    (∀ (o : Option ℚ) (now : ℚ),
        (tryAdmit o now).1 = false ↔ ∃ t, o = some t ∧ now - t < 2) ∧
    (∀ (now : ℚ) (n : Nat), 1 ≤ n → admitCountSim none now n = 1) := by
  constructor
  · intro o now
    cases o with
    | none => simp [tryAdmit]
    | some t =>
        by_cases h : now - t < 2
        · simp [tryAdmit, h]
        · simp [tryAdmit, h]
  · intro now n hn
    match n, hn with
    | Nat.succ k, _ =>
        have h : tryAdmit none now = (true, some now) := by
          simp [tryAdmit]
        simp [admitCountSim, h, admitCountSim_inflight]

/-- Witness for C1_throttle_amended at a concrete input: three
simultaneous arrivals at time 0 admit exactly one request. -/
theorem C1_throttle_amended_witness : admitCountSim none 0 3 = 1 :=
  C1_throttle_amended.2 0 3 (by norm_num)

/-- Claim C5: the normalizer clamps confidence to [0,1] with a default
of 1/2 when missing, clamps severity to the integer range [1,5] with a
default of 1 when missing, and the final suspicion verdict is the
coerced boolean AND confidence at or above the configured threshold
(ai_service.py lines 272-284). -/
theorem C5_normalizer_clamps (raw : RawAnalysis) (thr : ℚ) :
    0 ≤ (normalize raw).confidence ∧ (normalize raw).confidence ≤ 1 ∧
    (raw.confidence = none → (normalize raw).confidence = 1/2) ∧
    1 ≤ (normalize raw).severity ∧ (normalize raw).severity ≤ 5 ∧
    (raw.severity = none → (normalize raw).severity = 1) ∧
    ((analyzeWithOllama (.ok raw) thr).1 = true ↔
      (normalize raw).is_suspicious = true ∧ thr ≤ (normalize raw).confidence) := by
  refine ⟨?_, ?_, ?_, ?_, ?_, ?_, ?_⟩
  · simp [normalize]
  · simp [normalize]
  · intro h
    simp [normalize, h]
    norm_num
  · simp [normalize]
  · simp [normalize]
  · intro h
    simp [normalize, h]
  · simp [analyzeWithOllama]

/-- Witness for C5_normalizer_clamps at a concrete payload with both
confidence and severity missing: the defaults 1/2 and 1 apply. -/
theorem C5_normalizer_clamps_witness :
    (normalize { is_suspicious := some true, confidence := none,
                 severity := none, detected_issues := none,
                 description := none, alert_type := none }).confidence = 1/2 ∧
    (normalize { is_suspicious := some true, confidence := none,
                 severity := none, detected_issues := none,
                 description := none, alert_type := none }).severity = 1 :=
  ⟨(C5_normalizer_clamps _ 0).2.2.1 rfl,
   (C5_normalizer_clamps _ 0).2.2.2.2.2.1 rfl⟩

/-- Good-behavior bookkeeping touches neither the session table nor the
event log nor the throttle map. -/
lemma goodBehaviorPhase_sessions (st : ServerState) (sid : Nat) (b : Bool) :
    (goodBehaviorPhase st sid b).1.sessions = st.sessions := by
  unfold goodBehaviorPhase
  cases b <;> simp only [Bool.false_eq_true, if_true, if_false]
  · split
    · split <;> rfl
    · rfl

/-- Good-behavior bookkeeping leaves the event log unchanged. -/
lemma goodBehaviorPhase_events (st : ServerState) (sid : Nat) (b : Bool) :
    (goodBehaviorPhase st sid b).1.events = st.events := by
  unfold goodBehaviorPhase
  cases b <;> simp only [Bool.false_eq_true, if_true, if_false]
  · split
    · split <;> rfl
    · rfl

/-- Good-behavior bookkeeping leaves the throttle map unchanged. -/
lemma goodBehaviorPhase_ongoing (st : ServerState) (sid : Nat) (b : Bool) :
    (goodBehaviorPhase st sid b).1.ongoingAnalysis = st.ongoingAnalysis := by
  unfold goodBehaviorPhase
  cases b <;> simp only [Bool.false_eq_true, if_true, if_false]
  · split
    · split <;> rfl
    · rfl

/-- Good-behavior bookkeeping emits positive feedback only. -/
lemma goodBehaviorPhase_feedback (st : ServerState) (sid : Nat) (b : Bool) :
    ∀ e ∈ (goodBehaviorPhase st sid b).2, isFeedback e = true := by
  unfold goodBehaviorPhase
  cases b <;> simp only [Bool.false_eq_true, if_true, if_false]
  · split
    · split <;> simp [isFeedback]
    · simp
  · simp

/-- On a violation the good-behavior phase emits nothing. -/
lemma goodBehaviorPhase_susp_emits (st : ServerState) (sid : Nat) :
    (goodBehaviorPhase st sid true).2 = [] := rfl

/-- A payload whose alert kind resolves to "none" short-circuits the
suspicious branch with no state change and no emission. -/
lemma suspiciousPhase_none (st : ServerState) (sid : Nat) (a : AnalysisResult)
    (now : ℚ) (h : a.alert_type.getD "suspicious_activity" = "none") :
    suspiciousPhase st sid a now = (st, []) := by
  simp [suspiciousPhase, h]

/-- Claim C6: an alert kind outside the closed enumeration is coerced to
"none" by the normalizer (ai_service.py lines 262-265), and a payload
whose normalized kind is "none" creates no MonitoringEvent and leaves
every session (hence every score) unchanged (main.py lines 216-220). -/
theorem C6_bogus_alert_coerced :
    (∀ (raw : RawAnalysis) (t : String), raw.alert_type = some t →
        t ∉ validAlertTypes → (normalize raw).alert_type = "none") ∧
    (∀ (st : ServerState) (sid : Nat) (raw : RawAnalysis) (now thr : ℚ),
        (normalize raw).alert_type = "none" →
        (analyzeFrame st sid (.ok raw) now thr).1.events = st.events ∧
        (analyzeFrame st sid (.ok raw) now thr).1.sessions = st.sessions) := by
  constructor
  · intro raw t ht hmem
    simp [normalize, ht, hmem]
  · intro st sid raw now thr hnone
    unfold analyzeFrame
    by_cases hadm : (tryAdmit (st.ongoingAnalysis sid) now).1
    · by_cases hsusp : (analyzeWithOllama (.ok raw) thr).1
      · have h2 : (analyzeWithOllama (.ok raw) thr).2.alert_type
            = some (normalize raw).alert_type := rfl
        simp only [hadm, hsusp, if_true]
        rw [suspiciousPhase_none _ _ _ _ (by rw [h2, hnone]; rfl)]
        simp [goodBehaviorPhase_events, goodBehaviorPhase_sessions]
      · simp only [hadm, hsusp, if_true, if_false, Bool.false_eq_true]
        simp [goodBehaviorPhase_events, goodBehaviorPhase_sessions]
    · simp [hadm]

/-- Witness for C6_bogus_alert_coerced: the scenario payload with alert
kind "bogus_value" and confidence 0.99 is coerced to kind "none" and,
run through the frame handler on a one-session state, leaves the event
log empty and the session table untouched. -/
theorem C6_bogus_alert_coerced_witness :
    (normalize bogusRaw).alert_type = "none" ∧
    (analyzeFrame baseState 1 (.ok bogusRaw) 0 0).1.events
      = baseState.events := by
  have h1 := C6_bogus_alert_coerced.1 bogusRaw "bogus_value" rfl (by decide)
  exact ⟨h1, (C6_bogus_alert_coerced.2 baseState 1 bogusRaw 0 0 h1).1⟩

/-- Claim C8: a classifier invocation ending in a transport error,
timeout or unparsable output yields the fail-closed verdict (not
suspicious, confidence 0, a distinct error tag), and the frame handler
still clears the in-flight throttle marker, records no event, mutates
no session, and emits at most positive feedback (never an alert)
(ai_service.py lines 288-304, main.py lines 164-169). -/
theorem C8_error_fail_closed (st : ServerState) (sid : Nat) (m : String)
    (now thr : ℚ)
    (hadm : (tryAdmit (st.ongoingAnalysis sid) now).1 = true) :
    (analyzeWithOllama (.err m) thr).1 = false ∧
    (analyzeWithOllama (.err m) thr).2.confidence = 0 ∧
    (analyzeWithOllama (.err m) thr).2.error = some m ∧
    (analyzeFrame st sid (.err m) now thr).1.ongoingAnalysis sid = none ∧
    (analyzeFrame st sid (.err m) now thr).1.events = st.events ∧
    (analyzeFrame st sid (.err m) now thr).1.sessions = st.sessions ∧
    (∀ e ∈ (analyzeFrame st sid (.err m) now thr).2, isFeedback e = true) := by
  refine ⟨rfl, rfl, rfl, ?_, ?_, ?_, ?_⟩
  · unfold analyzeFrame
    simp only [hadm, if_true, analyzeWithOllama, Bool.false_eq_true, if_false]
    rw [goodBehaviorPhase_ongoing]
    simp [setAt]
  · unfold analyzeFrame
    simp only [hadm, if_true, analyzeWithOllama, Bool.false_eq_true, if_false]
    rw [goodBehaviorPhase_events]
  · unfold analyzeFrame
    simp only [hadm, if_true, analyzeWithOllama, Bool.false_eq_true, if_false]
    rw [goodBehaviorPhase_sessions]
  · unfold analyzeFrame
    simp only [hadm, if_true, analyzeWithOllama, Bool.false_eq_true, if_false]
    exact goodBehaviorPhase_feedback _ _ _


/-- Warnings are not feedback. -/
lemma warnEmitsOf_no_feedback (o : Option Nat) (sid : Nat) :
    ∀ e ∈ warnEmitsOf o sid, isFeedback e = false := by
  cases o <;> simp [warnEmitsOf, isFeedback]

/-- Termination notices are not feedback. -/
lemma autoEmitsOf_no_feedback (o : Option Nat) (sid : Nat) :
    ∀ e ∈ autoEmitsOf o sid, isFeedback e = false := by
  cases o <;> simp [autoEmitsOf, isFeedback]

/-- Warnings are not proctor broadcasts. -/
lemma warnEmitsOf_no_proctor (o : Option Nat) (sid : Nat) :
    ∀ e ∈ warnEmitsOf o sid, isProctorAlert e = false := by
  cases o <;> simp [warnEmitsOf, isProctorAlert]

/-- Termination notices are not proctor broadcasts. -/
lemma autoEmitsOf_no_proctor (o : Option Nat) (sid : Nat) :
    ∀ e ∈ autoEmitsOf o sid, isProctorAlert e = false := by
  cases o <;> simp [autoEmitsOf, isProctorAlert]

/-- The suspicious branch never touches the good-behavior counters. -/
lemma suspiciousPhase_gbc (st : ServerState) (sid : Nat) (a : AnalysisResult)
    (now : ℚ) :
    (suspiciousPhase st sid a now).1.goodBehaviorCount = st.goodBehaviorCount := by
  unfold suspiciousPhase
  dsimp only
  split
  · rfl
  · split
    · rfl
    · split <;> rfl

/-- The suspicious branch never emits positive feedback. -/
lemma suspiciousPhase_no_feedback (st : ServerState) (sid : Nat)
    (a : AnalysisResult) (now : ℚ) :
    ∀ e ∈ (suspiciousPhase st sid a now).2, isFeedback e = false := by
  unfold suspiciousPhase
  dsimp only
  split
  · simp
  · split
    · simp
    · split
      · simp
      · intro e he
        simp only [List.mem_append, List.mem_singleton] at he
        rcases he with (h | h) | h
        · exact warnEmitsOf_no_feedback _ _ _ h
        · revert h
          split
          · exact fun h => autoEmitsOf_no_feedback _ _ _ h
          · intro h
            exact absurd h (List.not_mem_nil e)
        · subst h
          rfl

/-- A violation resets the good-behavior counter to zero. -/
lemma goodBehaviorPhase_count_susp (st : ServerState) (sid : Nat) :
    (goodBehaviorPhase st sid true).1.goodBehaviorCount sid = 0 := by
  simp [goodBehaviorPhase]

/-- A clean check increments the good-behavior counter by one. -/
lemma goodBehaviorPhase_count_clean (st : ServerState) (sid : Nat) :
    (goodBehaviorPhase st sid false).1.goodBehaviorCount sid
      = st.goodBehaviorCount sid + 1 := by
  unfold goodBehaviorPhase
  simp only [Bool.false_eq_true, if_false]
  split
  · split <;> simp
  · simp

/-- Feedback is emitted by a clean check exactly when the incremented
counter hits the 15-cadence and a student socket is registered. -/
lemma goodBehaviorPhase_feedback_iff (st : ServerState) (sid : Nat) :
    (∃ e ∈ (goodBehaviorPhase st sid false).2, isFeedback e = true) ↔
      ((st.goodBehaviorCount sid + 1) % 15 = 0 ∧
        ∃ sock, st.activeSessions sid = some sock) := by
  unfold goodBehaviorPhase
  simp only [Bool.false_eq_true, if_false]
  by_cases h : (st.goodBehaviorCount sid + 1) % 15 = 0
  · simp only [h, if_true]
    cases hs : st.activeSessions sid <;> simp [hs, isFeedback, h]
  · simp [h]

/-- A positive counter hits the 15-cadence exactly when it is a
positive multiple of 15. -/
lemma mod15_iff (c : Nat) (hc : 0 < c) :
    c % 15 = 0 ↔ ∃ k, 0 < k ∧ c = 15 * k := by
  constructor
  · intro hm
    obtain ⟨k, hk⟩ := Nat.dvd_of_mod_eq_zero hm
    refine ⟨k, ?_, hk⟩
    rcases Nat.eq_zero_or_pos k with h0 | h0
    · subst h0
      simp [hk] at hc
    · exact h0
  · rintro ⟨k, hk0, rfl⟩
    simp [Nat.mul_mod_right]

/-- Claim C7: the good-behavior counter resets to zero on any admitted
suspicious check and increments on clean ones; positive feedback is
delivered (to a registered student socket) exactly when the counter is
a positive multiple of 15; and 16 consecutive clean checks deliver
feedback exactly once, after the 15th (main.py lines 171-200). -/
theorem C7_good_behavior_cadence :
    (∀ (st : ServerState) (sid : Nat) (cls : ClassifierResult) (now thr : ℚ),
        (tryAdmit (st.ongoingAnalysis sid) now).1 = true →
        (((analyzeWithOllama cls thr).1 = true →
            (analyzeFrame st sid cls now thr).1.goodBehaviorCount sid = 0) ∧
         ((analyzeWithOllama cls thr).1 = false →
            (analyzeFrame st sid cls now thr).1.goodBehaviorCount sid
              = st.goodBehaviorCount sid + 1) ∧
         ((∃ e ∈ (analyzeFrame st sid cls now thr).2, isFeedback e = true) ↔
            ((analyzeWithOllama cls thr).1 = false ∧
             (∃ sock, st.activeSessions sid = some sock) ∧
             ∃ k, 0 < k ∧ st.goodBehaviorCount sid + 1 = 15 * k)))) ∧
    ((run baseState (List.replicate 14 (Step.frame 1 (.ok cleanRaw) 0 (7/10)))).2.countP
        isFeedback = 0 ∧
     (run baseState (List.replicate 15 (Step.frame 1 (.ok cleanRaw) 0 (7/10)))).2.countP
        isFeedback = 1 ∧
     (run baseState (List.replicate 16 (Step.frame 1 (.ok cleanRaw) 0 (7/10)))).2.countP
        isFeedback = 1) := by
  constructor
  · intro st sid cls now thr hadm
    refine ⟨?_, ?_, ?_⟩
    · intro hs
      unfold analyzeFrame
      simp only [hadm, if_true, hs]
      rw [suspiciousPhase_gbc, goodBehaviorPhase_count_susp]
    · intro hs
      unfold analyzeFrame
      simp only [hadm, if_true, hs, Bool.false_eq_true, if_false]
      exact goodBehaviorPhase_count_clean _ _
    · by_cases hs : (analyzeWithOllama cls thr).1
      · unfold analyzeFrame
        simp only [hadm, if_true, hs]
        constructor
        · rintro ⟨e, he, hf⟩
          rw [goodBehaviorPhase_susp_emits] at he
          simp only [List.nil_append] at he
          exact absurd hf (by simp [suspiciousPhase_no_feedback _ _ _ _ e he])
        · rintro ⟨hfalse, -, -⟩
          exact absurd hfalse (by simp)
      · have hs' : (analyzeWithOllama cls thr).1 = false := by
          simpa using hs
        unfold analyzeFrame
        simp only [hadm, if_true, hs', Bool.false_eq_true, if_false,
          eq_self_iff_true, true_and]
        rw [goodBehaviorPhase_feedback_iff]
        constructor
        · rintro ⟨hmod, hsock⟩
          exact ⟨hsock, (mod15_iff _ (Nat.succ_pos _)).1 hmod⟩
        · rintro ⟨hsock, hk⟩
          exact ⟨(mod15_iff _ (Nat.succ_pos _)).2 hk, hsock⟩
  · refine ⟨by decide, by decide, by decide⟩

/-- Witness for C8_error_fail_closed at a concrete input: a timeout on
the fresh base state clears the throttle marker of session 1 and leaves
the event log untouched. -/
theorem C8_error_fail_closed_witness :
    (analyzeFrame baseState 1 (.err "timeout") 0 (7/10)).1.ongoingAnalysis 1 = none ∧
    (analyzeFrame baseState 1 (.err "timeout") 0 (7/10)).1.events = baseState.events :=
  ⟨(C8_error_fail_closed baseState 1 "timeout" 0 (7/10) rfl).2.2.2.1,
   (C8_error_fail_closed baseState 1 "timeout" 0 (7/10) rfl).2.2.2.2.1⟩

/-- Witness for C7_good_behavior_cadence at a concrete input: a clean
admitted check on the fresh base state increments the counter of
session 1 to one. -/
theorem C7_good_behavior_cadence_witness :
    (analyzeFrame baseState 1 (.ok cleanRaw) 0 (7/10)).1.goodBehaviorCount 1
      = baseState.goodBehaviorCount 1 + 1 :=
  (C7_good_behavior_cadence.1 baseState 1 (.ok cleanRaw) 0 (7/10) rfl).2.1 rfl

/-- Good-behavior bookkeeping leaves the exam table unchanged. -/
lemma goodBehaviorPhase_exams (st : ServerState) (sid : Nat) (b : Bool) :
    (goodBehaviorPhase st sid b).1.exams = st.exams := by
  unfold goodBehaviorPhase
  cases b <;> simp only [Bool.false_eq_true, if_true, if_false]
  · split
    · split <;> rfl
    · rfl

/-- Good-behavior bookkeeping leaves the registry unchanged. -/
lemma goodBehaviorPhase_active (st : ServerState) (sid : Nat) (b : Bool) :
    (goodBehaviorPhase st sid b).1.activeSessions = st.activeSessions := by
  unfold goodBehaviorPhase
  cases b <;> simp only [Bool.false_eq_true, if_true, if_false]
  · split
    · split <;> rfl
    · rfl

/-- The normalizer only ever outputs members of the closed alert
enumeration. -/
lemma normalize_alert_mem (raw : RawAnalysis) :
    (normalize raw).alert_type ∈ validAlertTypes := by
  unfold normalize
  dsimp only
  split
  · assumption
  · simp [validAlertTypes]

/-- A valid alert kind other than "none" is a member name of the
AlertType enum. -/
lemma valid_ne_none_mem_enum (t : String) (h1 : t ∈ validAlertTypes)
    (h2 : t ≠ "none") : t ∈ alertTypeEnumNames := by
  simp only [validAlertTypes, List.mem_cons, List.mem_singleton,
    List.not_mem_nil, or_false] at h1
  rcases h1 with h | h | h | h | h | h <;>
    simp [alertTypeEnumNames, h] at h2 ⊢

/-- Full behavior of the suspicious branch on a recordable alert (kind
present, not "none", a member of the AlertType enum) when the session
row exists: the event is appended with the payload severity, the score
and alert count are bumped, and the session auto-submits exactly when
the new score reaches the threshold of its exam while it was not yet
submitted. -/
lemma suspiciousPhase_spec (st : ServerState) (sid : Nat) (a : AnalysisResult)
    (now : ℚ) (s : SessionRec) (sev : Int) (A : String)
    (ha : a.alert_type = some A) (hA1 : A ≠ "none")
    (hA2 : A ∈ alertTypeEnumNames) (hsev : a.severity = some sev)
    (hsess : st.sessions sid = some s) :
    ∃ s', (suspiciousPhase st sid a now).1.sessions sid = some s' ∧
      s'.cheating_score = s.cheating_score + sev ∧
      s'.total_alerts = s.total_alerts + 1 ∧
      s'.exam_id = s.exam_id ∧
      (suspiciousPhase st sid a now).1.events = st.events ++
        [{ session_id := sid, event_type := A, confidence := a.confidence,
           severity := sev,
           description := a.description.getD "Suspicious activity detected" }] ∧
      ((st.exams s.exam_id).cheating_threshold ≤ s.cheating_score + sev ∧
          s.is_submitted = false →
        s'.is_submitted = true ∧ s'.auto_submitted = true ∧
          s'.end_time = some now) ∧
      (¬((st.exams s.exam_id).cheating_threshold ≤ s.cheating_score + sev ∧
          s.is_submitted = false) →
        s'.is_submitted = s.is_submitted ∧
          s'.auto_submitted = s.auto_submitted ∧ s'.end_time = s.end_time) := by
  unfold suspiciousPhase
  simp only [ha, hsev, Option.getD_some, hA1, if_false, hA2, not_true,
    ite_false, hsess]
  by_cases htrig : (st.exams s.exam_id).cheating_threshold
      ≤ s.cheating_score + sev ∧ s.is_submitted = false
  · refine ⟨⟨s.exam_id, s.student_id, true, true, some now,
        s.cheating_score + sev, s.total_alerts + 1⟩,
      ?_, rfl, rfl, rfl, ?_, ?_, ?_⟩
    · simp [setAt, htrig]
    · trivial
    · intro hx
      exact ⟨rfl, rfl, rfl⟩
    · intro hx
      exact absurd htrig hx
  · refine ⟨⟨s.exam_id, s.student_id, s.is_submitted, s.auto_submitted,
        s.end_time, s.cheating_score + sev, s.total_alerts + 1⟩,
      ?_, rfl, rfl, rfl, ?_, ?_, ?_⟩
    · simp [setAt, htrig]
    · trivial
    · intro hx
      exact absurd hx htrig
    · intro hx
      exact ⟨rfl, rfl, rfl⟩

/-- Claim C3: on an admitted suspicious recordable event for a
non-submitted session, the score grows by the normalized severity and
the session auto-submits exactly when the new score reaches the exam
threshold, stamping the termination timestamp (main.py lines 252-266);
in the 3,4,4 severity scenario against threshold 10, nothing terminates
at score 7 and the third event auto-submits at score 11 with exactly
one termination notice sent. -/
theorem C3_threshold_auto_submit :
    (∀ (st : ServerState) (sid : Nat) (raw : RawAnalysis) (now thr : ℚ)
        (s : SessionRec),
      (tryAdmit (st.ongoingAnalysis sid) now).1 = true →
      (analyzeWithOllama (.ok raw) thr).1 = true →
      (normalize raw).alert_type ≠ "none" →
      st.sessions sid = some s → s.is_submitted = false →
      s.auto_submitted = false →
      ∃ s', (analyzeFrame st sid (.ok raw) now thr).1.sessions sid = some s' ∧
        s'.cheating_score = s.cheating_score + (normalize raw).severity ∧
        s'.total_alerts = s.total_alerts + 1 ∧
        (s'.auto_submitted = true ↔
          (st.exams s.exam_id).cheating_threshold
            ≤ s.cheating_score + (normalize raw).severity) ∧
        (s'.auto_submitted = true →
          s'.is_submitted = true ∧ s'.end_time = some now)) ∧
    ((run baseState [Step.frame 1 (.ok (suspRaw 3)) 0 0,
                     Step.frame 1 (.ok (suspRaw 4)) 0 0]).1.sessions 1 =
       some { exam_id := 1, student_id := 7, is_submitted := false,
              auto_submitted := false, end_time := none, cheating_score := 7,
              total_alerts := 2 }) ∧
    ((run baseState [Step.frame 1 (.ok (suspRaw 3)) 0 0,
                     Step.frame 1 (.ok (suspRaw 4)) 0 0,
                     Step.frame 1 (.ok (suspRaw 4)) 0 0]).1.sessions 1 =
       some { exam_id := 1, student_id := 7, is_submitted := true,
              auto_submitted := true, end_time := some 0, cheating_score := 11,
              total_alerts := 3 }) ∧
    ((run baseState [Step.frame 1 (.ok (suspRaw 3)) 0 0,
                     Step.frame 1 (.ok (suspRaw 4)) 0 0,
                     Step.frame 1 (.ok (suspRaw 4)) 0 0]).2.countP
        isAutoSubmitNotice = 1) := by
  refine ⟨?_, by decide, by decide, by decide⟩
  intro st sid raw now thr s hadm hsusp halert hsess hsub hauto
  unfold analyzeFrame
  simp only [hadm, if_true, hsusp]
  have hmem : (normalize raw).alert_type ∈ alertTypeEnumNames :=
    valid_ne_none_mem_enum _ (normalize_alert_mem raw) halert
  have hsess2 : (goodBehaviorPhase
      { st with ongoingAnalysis := setAt (setAt st.ongoingAnalysis sid
          (tryAdmit (st.ongoingAnalysis sid) now).2) sid none }
      sid true).1.sessions sid = some s := by
    rw [goodBehaviorPhase_sessions]
    exact hsess
  obtain ⟨s', h1, h2, h3, h4, h5, h6, h7⟩ :=
    suspiciousPhase_spec _ sid (analyzeWithOllama (.ok raw) thr).2 now s
      (normalize raw).severity (normalize raw).alert_type rfl halert hmem rfl
      hsess2
  refine ⟨s', h1, h2, h3, ?_, ?_⟩
  · constructor
    · intro hauto'
      by_contra hthr
      have hx := h7 (by
        rw [goodBehaviorPhase_exams]
        intro hcon
        exact hthr hcon.1)
      rw [hx.2.1, hauto] at hauto'
      exact Bool.false_ne_true hauto'
    · intro hthr
      exact (h6 (by rw [goodBehaviorPhase_exams]; exact ⟨hthr, hsub⟩)).2.1
  · intro hauto'
    by_cases hthr : (st.exams s.exam_id).cheating_threshold
        ≤ s.cheating_score + (normalize raw).severity
    · have hx := h6 (by rw [goodBehaviorPhase_exams]; exact ⟨hthr, hsub⟩)
      exact ⟨hx.1, hx.2.2⟩
    · have hx := h7 (by
        rw [goodBehaviorPhase_exams]
        intro hcon
        exact hthr hcon.1)
      rw [hx.2.1, hauto] at hauto'
      exact absurd hauto' Bool.false_ne_true

/-- Witness for C3_threshold_auto_submit at a concrete input: a single
severity-3 event on the fresh base state (threshold 10) yields score 3
and no auto-submission. -/
theorem C3_threshold_auto_submit_witness :
    ∃ s', (analyzeFrame baseState 1 (.ok (suspRaw 3)) 0 0).1.sessions 1 = some s' ∧
      s'.cheating_score = baseSession.cheating_score + (normalize (suspRaw 3)).severity ∧
      s'.total_alerts = baseSession.total_alerts + 1 ∧
      (s'.auto_submitted = true ↔
        (baseState.exams baseSession.exam_id).cheating_threshold
          ≤ baseSession.cheating_score + (normalize (suspRaw 3)).severity) ∧
      (s'.auto_submitted = true → s'.is_submitted = true ∧ s'.end_time = some 0) :=
  C3_threshold_auto_submit.1 baseState 1 (suspRaw 3) 0 0 baseSession rfl
    (by decide) (by decide) rfl rfl rfl

/-- Claim C2, counterexample: a tab-switch reported for a session that
is already auto-submitted is not rejected; tab_switch_detected
(main.py lines 291-340) checks no submission state, so the score rises
from 5 to 7, the alert count from 1 to 2, a new MonitoringEvent is
recorded and warning plus proctor alert are dispatched. -/
theorem C2_counterexample :
    ((tabSwitch { baseState with
        sessions := fun n => if n = 1 then
          some ⟨1, 7, true, true, some 0, 5, 1⟩ else none } 1).1.sessions 1 =
      some ⟨1, 7, true, true, some 0, 7, 2⟩) ∧
    ((tabSwitch { baseState with
        sessions := fun n => if n = 1 then
          some ⟨1, 7, true, true, some 0, 5, 1⟩ else none } 1).1.events.length = 1) ∧
    ((tabSwitch { baseState with
        sessions := fun n => if n = 1 then
          some ⟨1, 7, true, true, some 0, 5, 1⟩ else none } 1).2 ≠ []) := by
  refine ⟨by decide, by decide, by decide⟩

/-- Claim C2 as amended: the submission state guards only the
auto-submit transition (main.py line 254); for a session already
submitted or auto-submitted, a reported tab-switch still appends a
severity-2 MonitoringEvent, still increments the cheating score by 2
and the alert count by 1, and still dispatches the proctor broadcast. -/
theorem C2_submitted_still_mutates (st : ServerState) (sid : Nat)
    (s : SessionRec) (hsess : st.sessions sid = some s)
    (_hsub : s.is_submitted = true) :
    ∃ s', (tabSwitch st sid).1.sessions sid = some s' ∧
      s'.cheating_score = s.cheating_score + 2 ∧
      s'.total_alerts = s.total_alerts + 1 ∧
      (tabSwitch st sid).1.events = st.events ++
        [{ session_id := sid, event_type := "tab_switch", confidence := 1,
           severity := 2,
           description := "Student switched browser tab or window" }] ∧
      Emit.cheatingAlert s.exam_id sid ∈ (tabSwitch st sid).2 := by
  unfold tabSwitch
  simp only [hsess]
  refine ⟨⟨s.exam_id, s.student_id, s.is_submitted, s.auto_submitted,
      s.end_time, s.cheating_score + 2, s.total_alerts + 1⟩,
    ?_, rfl, rfl, trivial, ?_⟩
  · simp [setAt]
  · simp

/-- Witness for C2_submitted_still_mutates at a concrete input: the
counterexample state, score 5 rising to 7. -/
theorem C2_submitted_still_mutates_witness :
    ∃ s', (tabSwitch { baseState with
        sessions := fun n => if n = 1 then
          some ⟨1, 7, true, true, some 0, 5, 1⟩ else none } 1).1.sessions 1 =
        some s' ∧
      s'.cheating_score = (5 : Int) + 2 ∧
      s'.total_alerts = 1 + 1 ∧
      (tabSwitch { baseState with
        sessions := fun n => if n = 1 then
          some ⟨1, 7, true, true, some 0, 5, 1⟩ else none } 1).1.events =
        ([] : List EventRec) ++
        [{ session_id := 1, event_type := "tab_switch", confidence := 1,
           severity := 2,
           description := "Student switched browser tab or window" }] ∧
      Emit.cheatingAlert 1 1 ∈ (tabSwitch { baseState with
        sessions := fun n => if n = 1 then
          some ⟨1, 7, true, true, some 0, 5, 1⟩ else none } 1).2 :=
  C2_submitted_still_mutates _ 1 ⟨1, 7, true, true, some 0, 5, 1⟩ rfl rfl

/-- Appending one event adds its severity to the sum of its session and
leaves every other session sum unchanged. -/
lemma sessionEventsSum_append_one (l : List EventRec) (ev : EventRec) (sid : Nat) :
    sessionEventsSum (l ++ [ev]) sid =
      sessionEventsSum l sid + (if ev.session_id = sid then ev.severity else 0) := by
  unfold sessionEventsSum
  rw [List.filter_append, List.map_append, List.sum_append]
  by_cases h : ev.session_id = sid
  · simp [h]
  · simp [h]

/-- The score invariant only reads the session table and event log. -/
lemma scoreInvariant_congr (st st' : ServerState)
    (hs : st'.sessions = st.sessions) (he : st'.events = st.events)
    (h : ScoreInvariant st) : ScoreInvariant st' := by
  intro sid s hsess
  rw [hs] at hsess
  rw [he]
  exact h sid s hsess

/-- The tab-switch handler preserves the score invariant: the appended
severity-2 event is matched by the +2 score bump. -/
lemma tabSwitch_scoreInv (st : ServerState) (sid : Nat)
    (hinv : ScoreInvariant st) : ScoreInvariant (tabSwitch st sid).1 := by
  unfold tabSwitch
  dsimp only
  split
  · rename_i heq
    intro sid' s' hsess'
    dsimp only at hsess' ⊢
    rw [sessionEventsSum_append_one]
    by_cases h : sid = sid'
    · subst h
      rw [heq] at hsess'
      exact absurd hsess' (by simp)
    · simp only [h, if_false]
      rw [add_zero]
      exact hinv sid' s' hsess'
  · rename_i s heq
    intro sid' s' hsess'
    dsimp only at hsess' ⊢
    rw [sessionEventsSum_append_one]
    unfold setAt at hsess'
    by_cases h : sid' = sid
    · subst h
      simp only [if_pos rfl] at hsess'
      cases hsess'
      simp only [if_pos rfl]
      rw [hinv sid' s heq]
      simp
    · simp only [h, if_false] at hsess'
      have hne : ¬(sid = sid') := fun hx => h hx.symm
      simp only [hne, if_false]
      rw [add_zero]
      exact hinv sid' s' hsess'

/-- The suspicious branch preserves the score invariant whenever the
payload severity is present (as it always is for a normalized payload):
the appended event carries that severity and the score rises by it. -/
lemma suspiciousPhase_scoreInv (st : ServerState) (sid : Nat)
    (a : AnalysisResult) (now : ℚ) (sev : Int) (hsev : a.severity = some sev)
    (hinv : ScoreInvariant st) :
    ScoreInvariant (suspiciousPhase st sid a now).1 := by
  unfold suspiciousPhase
  dsimp only
  split
  · exact hinv
  · split
    · exact hinv
    · split
      · rename_i heq
        intro sid' s' hsess'
        dsimp only at hsess' ⊢
        rw [sessionEventsSum_append_one]
        by_cases h : sid = sid'
        · subst h
          rw [heq] at hsess'
          exact absurd hsess' (by simp)
        · simp only [h, if_false]
          rw [add_zero]
          exact hinv sid' s' hsess'
      · rename_i s heq
        intro sid' s' hsess'
        dsimp only at hsess' ⊢
        rw [sessionEventsSum_append_one]
        unfold setAt at hsess'
        by_cases h : sid' = sid
        · subst h
          simp only [if_pos rfl] at hsess'
          cases hsess'
          simp only [if_pos rfl, hsev, Option.getD_some]
          split
          · dsimp only
            rw [hinv sid' s heq]
            simp
          · dsimp only
            rw [hinv sid' s heq]
            simp
        · simp only [h, if_false] at hsess'
          have hne : ¬(sid = sid') := fun hx => h hx.symm
          simp only [hne, if_false]
          rw [add_zero]
          exact hinv sid' s' hsess'

/-- The frame handler preserves the score invariant. -/
lemma analyzeFrame_scoreInv (st : ServerState) (sid : Nat)
    (cls : ClassifierResult) (now thr : ℚ) (hinv : ScoreInvariant st) :
    ScoreInvariant (analyzeFrame st sid cls now thr).1 := by
  unfold analyzeFrame
  dsimp only
  split
  · have hbase : ScoreInvariant (goodBehaviorPhase
        { st with ongoingAnalysis := setAt (setAt st.ongoingAnalysis sid
            (tryAdmit (st.ongoingAnalysis sid) now).2) sid none }
        sid (analyzeWithOllama cls thr).1).1 :=
      scoreInvariant_congr _ _ (by rw [goodBehaviorPhase_sessions])
        (by rw [goodBehaviorPhase_events]) hinv
    split
    · rename_i hres
      cases cls with
      | err m => simp [analyzeWithOllama] at hres
      | ok raw =>
          exact suspiciousPhase_scoreInv _ _ _ _ (normalize raw).severity rfl
            hbase
    · exact hbase
  · exact hinv

/-- One dispatched step preserves the score invariant. -/
lemma step_scoreInv (st : ServerState) (a : Step) (hinv : ScoreInvariant st) :
    ScoreInvariant (step st a).1 := by
  cases a with
  | frame sid cls now thr => exact analyzeFrame_scoreInv st sid cls now thr hinv
  | tab sid => exact tabSwitch_scoreInv st sid hinv

/-- A whole trace preserves the score invariant. -/
lemma run_scoreInv (steps : List Step) (st : ServerState)
    (hinv : ScoreInvariant st) : ScoreInvariant (run st steps).1 := by
  induction steps generalizing st with
  | nil => exact hinv
  | cons a rest ih => exact ih (step st a).1 (step_scoreInv st a hinv)

/-- Normalized severities are at least one. -/
lemma normalize_severity_pos (raw : RawAnalysis) :
    1 ≤ (normalize raw).severity :=
  le_max_left _ _

/-- The suspicious branch never lowers any session score. -/
lemma suspiciousPhase_mono (st : ServerState) (sid : Nat) (a : AnalysisResult)
    (now : ℚ) (hpos : 0 ≤ a.severity.getD 1) (sid' : Nat) (s : SessionRec)
    (h : st.sessions sid' = some s) :
    ∃ s', (suspiciousPhase st sid a now).1.sessions sid' = some s' ∧
      s.cheating_score ≤ s'.cheating_score := by
  unfold suspiciousPhase
  dsimp only
  split
  · exact ⟨s, h, le_refl _⟩
  · split
    · exact ⟨s, h, le_refl _⟩
    · split
      · exact ⟨s, h, le_refl _⟩
      · rename_i s0 heq
        dsimp only at heq ⊢
        by_cases hs : sid' = sid
        · subst hs
          rw [heq] at h
          injection h with h
          subst h
          by_cases htrig : (st.exams s0.exam_id).cheating_threshold
              ≤ s0.cheating_score + a.severity.getD 1 ∧ s0.is_submitted = false
          · refine ⟨⟨s0.exam_id, s0.student_id, true, true, some now,
                s0.cheating_score + a.severity.getD 1, s0.total_alerts + 1⟩,
              ?_, ?_⟩
            · simp [setAt, htrig]
            · exact le_add_of_nonneg_right hpos
          · refine ⟨⟨s0.exam_id, s0.student_id, s0.is_submitted,
                s0.auto_submitted, s0.end_time,
                s0.cheating_score + a.severity.getD 1, s0.total_alerts + 1⟩,
              ?_, ?_⟩
            · simp [setAt, htrig]
            · exact le_add_of_nonneg_right hpos
        · refine ⟨s, ?_, le_refl _⟩
          simp only [setAt, hs, if_false]
          exact h

/-- The tab-switch handler never lowers any session score. -/
lemma tabSwitch_mono (st : ServerState) (sid : Nat) (sid' : Nat)
    (s : SessionRec) (h : st.sessions sid' = some s) :
    ∃ s', (tabSwitch st sid).1.sessions sid' = some s' ∧
      s.cheating_score ≤ s'.cheating_score := by
  unfold tabSwitch
  dsimp only
  split
  · exact ⟨s, h, le_refl _⟩
  · rename_i s0 heq
    dsimp only at heq ⊢
    by_cases hs : sid' = sid
    · subst hs
      rw [heq] at h
      injection h with h
      subst h
      refine ⟨⟨s0.exam_id, s0.student_id, s0.is_submitted, s0.auto_submitted,
          s0.end_time, s0.cheating_score + 2, s0.total_alerts + 1⟩, ?_, ?_⟩
      · simp [setAt]
      · exact le_add_of_nonneg_right (by norm_num)
    · refine ⟨s, ?_, le_refl _⟩
      simp only [setAt, hs, if_false]
      exact h

/-- The frame handler never lowers any session score. -/
lemma analyzeFrame_mono (st : ServerState) (sid : Nat)
    (cls : ClassifierResult) (now thr : ℚ) (sid' : Nat) (s : SessionRec)
    (h : st.sessions sid' = some s) :
    ∃ s', (analyzeFrame st sid cls now thr).1.sessions sid' = some s' ∧
      s.cheating_score ≤ s'.cheating_score := by
  unfold analyzeFrame
  dsimp only
  split
  · have hbase : (goodBehaviorPhase
        { st with ongoingAnalysis := setAt (setAt st.ongoingAnalysis sid
            (tryAdmit (st.ongoingAnalysis sid) now).2) sid none }
        sid (analyzeWithOllama cls thr).1).1.sessions sid' = some s := by
      rw [goodBehaviorPhase_sessions]
      exact h
    split
    · rename_i hres
      cases cls with
      | err m => simp [analyzeWithOllama] at hres
      | ok raw =>
          refine suspiciousPhase_mono _ _ _ _ ?_ _ _ hbase
          show (0 : Int) ≤ (some (normalize raw).severity).getD 1
          rw [Option.getD_some]
          exact le_trans zero_le_one (normalize_severity_pos raw)
    · exact ⟨s, hbase, le_refl _⟩
  · exact ⟨s, h, le_refl _⟩

/-- One dispatched step never lowers any session score. -/
lemma step_mono (st : ServerState) (a : Step) (sid : Nat) (s : SessionRec)
    (h : st.sessions sid = some s) :
    ∃ s', (step st a).1.sessions sid = some s' ∧
      s.cheating_score ≤ s'.cheating_score := by
  cases a with
  | frame sid0 cls now thr => exact analyzeFrame_mono st sid0 cls now thr sid s h
  | tab sid0 => exact tabSwitch_mono st sid0 sid s h

/-- A whole trace never lowers any session score. -/
lemma run_mono (steps : List Step) (st : ServerState) (sid : Nat)
    (s : SessionRec) (h : st.sessions sid = some s) :
    ∃ s', (run st steps).1.sessions sid = some s' ∧
      s.cheating_score ≤ s'.cheating_score := by
  induction steps generalizing st s with
  | nil => exact ⟨s, h, le_refl _⟩
  | cons a rest ih =>
      obtain ⟨s1, h1, h2⟩ := step_mono st a sid s h
      obtain ⟨s2, h3, h4⟩ := ih (step st a).1 s1 h1
      exact ⟨s2, h3, le_trans h2 h4⟩

/-- Claim C4: from any state satisfying the score invariant, every
trace of frame analyses and tab switches keeps each session cheating
score equal to the sum of the severities of the MonitoringEvents
recorded for it ("none" payloads record nothing), and each such score
is non-decreasing over time (main.py lines 222-237 and 300-313). -/
theorem C4_score_sum (st : ServerState) (steps : List Step)
    (hinv : ScoreInvariant st) :
    ScoreInvariant (run st steps).1 ∧
    ∀ sid s, st.sessions sid = some s →
      ∃ s', (run st steps).1.sessions sid = some s' ∧
        s.cheating_score ≤ s'.cheating_score :=
  ⟨run_scoreInv steps st hinv, fun sid s h => run_mono steps st sid s h⟩

/-- Witness for C4_score_sum at a concrete input: a tab switch followed
by a severity-3 frame event on the fresh base state keeps the invariant
and the score of session 1 non-decreasing. -/
theorem C4_score_sum_witness :
    ScoreInvariant (run baseState [Step.tab 1,
        Step.frame 1 (.ok (suspRaw 3)) 0 0]).1 ∧
    ∀ sid s, baseState.sessions sid = some s →
      ∃ s', (run baseState [Step.tab 1,
          Step.frame 1 (.ok (suspRaw 3)) 0 0]).1.sessions sid = some s' ∧
        s.cheating_score ≤ s'.cheating_score := by
  refine C4_score_sum baseState _ ?_
  intro sid s h
  unfold baseState at h
  dsimp only at h
  by_cases h1 : sid = 1
  · subst h1
    simp only [if_pos rfl] at h
    cases h
    rfl
  · simp [h1] at h

/-- The empty emission list trivially orders students before proctors. -/
lemma studentBeforeProctor_nil : StudentBeforeProctor [] :=
  ⟨[], [], rfl, by simp, by simp⟩

/-- A list without proctor broadcasts orders students before proctors. -/
lemma studentBeforeProctor_no_proctor (l : List Emit)
    (h : ∀ e ∈ l, isProctorAlert e = false) : StudentBeforeProctor l :=
  ⟨l, [], (List.append_nil l).symm, h, by simp⟩

/-- A proctor-free prefix followed by one proctor broadcast orders
students before proctors. -/
lemma studentBeforeProctor_append_alert (l : List Emit) (r sid : Nat)
    (h : ∀ e ∈ l, isProctorAlert e = false) :
    StudentBeforeProctor (l ++ [Emit.cheatingAlert r sid]) :=
  ⟨l, [Emit.cheatingAlert r sid], rfl, h, by simp [isProctorAlert]⟩

/-- Positive feedback is never a proctor broadcast. -/
lemma feedback_not_proctor (e : Emit) (h : isFeedback e = true) :
    isProctorAlert e = false := by
  cases e <;> simp [isFeedback, isProctorAlert] at h ⊢

/-- The suspicious branch emits all student messages before its single
proctor broadcast. -/
lemma suspiciousPhase_sbp (st : ServerState) (sid : Nat) (a : AnalysisResult)
    (now : ℚ) : StudentBeforeProctor (suspiciousPhase st sid a now).2 := by
  unfold suspiciousPhase
  dsimp only
  split
  · exact studentBeforeProctor_nil
  · split
    · exact studentBeforeProctor_nil
    · split
      · exact studentBeforeProctor_nil
      · refine studentBeforeProctor_append_alert _ _ _ ?_
        intro e he
        rcases List.mem_append.1 he with h | h
        · exact warnEmitsOf_no_proctor _ _ _ h
        · revert h
          split
          · exact fun h => autoEmitsOf_no_proctor _ _ _ h
          · intro h
            exact absurd h (List.not_mem_nil e)

/-- The tab-switch handler emits all student messages before its single
proctor broadcast. -/
lemma tabSwitch_sbp (st : ServerState) (sid : Nat) :
    StudentBeforeProctor (tabSwitch st sid).2 := by
  unfold tabSwitch
  dsimp only
  split
  · exact studentBeforeProctor_nil
  · exact studentBeforeProctor_append_alert _ _ _ (warnEmitsOf_no_proctor _ _)

/-- The frame handler emits all student messages before its single
proctor broadcast. -/
lemma analyzeFrame_sbp (st : ServerState) (sid : Nat) (cls : ClassifierResult)
    (now thr : ℚ) : StudentBeforeProctor (analyzeFrame st sid cls now thr).2 := by
  unfold analyzeFrame
  dsimp only
  split
  · split
    · rename_i hres
      simp only [hres, goodBehaviorPhase_susp_emits, List.nil_append]
      exact suspiciousPhase_sbp _ _ _ _
    · refine studentBeforeProctor_no_proctor _ ?_
      intro e he
      exact feedback_not_proctor e (goodBehaviorPhase_feedback _ _ _ e he)
  · exact studentBeforeProctor_nil

/-- With no student socket registered, the tab-switch handler skips the
student warning and still broadcasts to the proctor room alone. -/
lemma tabSwitch_no_socket (st : ServerState) (sid : Nat) (s : SessionRec)
    (hsess : st.sessions sid = some s)
    (hsock : st.activeSessions sid = none) :
    (tabSwitch st sid).2 = [Emit.cheatingAlert s.exam_id sid] := by
  unfold tabSwitch
  simp [hsess, hsock, warnEmitsOf]

/-- With no student socket registered, the frame handler on a recorded
suspicious event skips the student warning and termination notice and
still broadcasts to the proctor room alone. -/
lemma analyzeFrame_no_socket (st : ServerState) (sid : Nat)
    (raw : RawAnalysis) (now thr : ℚ) (s : SessionRec)
    (hadm : (tryAdmit (st.ongoingAnalysis sid) now).1 = true)
    (hsusp : (analyzeWithOllama (.ok raw) thr).1 = true)
    (halert : (normalize raw).alert_type ≠ "none")
    (hsess : st.sessions sid = some s)
    (hsock : st.activeSessions sid = none) :
    (analyzeFrame st sid (.ok raw) now thr).2
      = [Emit.cheatingAlert s.exam_id sid] := by
  have hmem := valid_ne_none_mem_enum _ (normalize_alert_mem raw) halert
  have ha : (analyzeWithOllama (.ok raw) thr).2.alert_type
      = some (normalize raw).alert_type := rfl
  unfold analyzeFrame
  simp only [hadm, if_true, hsusp, goodBehaviorPhase_susp_emits,
    List.nil_append]
  unfold suspiciousPhase
  simp only [ha, Option.getD_some, halert, if_false, hmem, not_true,
    ite_false, goodBehaviorPhase_sessions, goodBehaviorPhase_active, hsess,
    hsock]
  by_cases htrig : (st.exams s.exam_id).cheating_threshold ≤ s.cheating_score
      + (analyzeWithOllama (.ok raw) thr).2.severity.getD 1 ∧
      s.is_submitted = false
  · simp only [goodBehaviorPhase_exams] at htrig ⊢
    simp [htrig, warnEmitsOf, autoEmitsOf]
  · simp only [goodBehaviorPhase_exams] at htrig ⊢
    simp [htrig, warnEmitsOf, autoEmitsOf]

/-- Claim C9: every handler invocation emits its student-facing
messages (warning, termination notice, feedback) strictly before the
proctor-room broadcast for the same event, and when no student socket
is registered the student messages are skipped while the proctor
broadcast still goes out (main.py lines 239-280 and 314-337). -/
theorem C9_student_before_proctor :
    (∀ (st : ServerState) (a : Step), StudentBeforeProctor (step st a).2) ∧
    (∀ (st : ServerState) (sid : Nat) (s : SessionRec),
        st.sessions sid = some s → st.activeSessions sid = none →
        (tabSwitch st sid).2 = [Emit.cheatingAlert s.exam_id sid]) ∧
    (∀ (st : ServerState) (sid : Nat) (raw : RawAnalysis) (now thr : ℚ)
        (s : SessionRec),
        (tryAdmit (st.ongoingAnalysis sid) now).1 = true →
        (analyzeWithOllama (.ok raw) thr).1 = true →
        (normalize raw).alert_type ≠ "none" →
        st.sessions sid = some s → st.activeSessions sid = none →
        (analyzeFrame st sid (.ok raw) now thr).2
          = [Emit.cheatingAlert s.exam_id sid]) := by
  refine ⟨?_, ?_, ?_⟩
  · intro st a
    cases a with
    | frame sid cls now thr => exact analyzeFrame_sbp st sid cls now thr
    | tab sid => exact tabSwitch_sbp st sid
  · intro st sid s hsess hsock
    exact tabSwitch_no_socket st sid s hsess hsock
  · intro st sid raw now thr s hadm hsusp halert hsess hsock
    exact analyzeFrame_no_socket st sid raw now thr s hadm hsusp halert
      hsess hsock

/-- Witness for C9_student_before_proctor at a concrete input: with the
student of session 1 disconnected, a tab switch produces exactly the
proctor broadcast. -/
theorem C9_student_before_proctor_witness :
    (tabSwitch { baseState with activeSessions := fun _ => none } 1).2
      = [Emit.cheatingAlert 1 1] :=
  C9_student_before_proctor.2.1 _ 1 baseSession rfl rfl

/-- Claim C10: submitting for a session whose is_submitted flag is set
fails with "Exam already submitted" when no Submission row exists (the
auto-submitted case), recording nothing; and when a Submission row
already exists, the same call returns that row with the stored state
unchanged (main.py lines 641-662). -/
theorem C10_resubmit (st : ServerState) (sid uid : Nat) (s : SessionRec)
    (ans : List AnswerIn) (now : ℚ)
    (hsess : st.sessions sid = some s) (huser : s.student_id = uid)
    (hsub : s.is_submitted = true) :
    (st.submissions.find? (fun sub => sub.session_id = sid) = none →
      submitExam st sid uid ans now = .error "Exam already submitted") ∧
    (∀ sub, st.submissions.find? (fun sub2 => sub2.session_id = sid)
        = some sub →
      submitExam st sid uid ans now = .ok (sub, st)) := by
  constructor
  · intro hfind
    unfold submitExam
    simp [hsess, huser, hsub, hfind]
  · intro sub hfind
    unfold submitExam
    simp [hsess, huser, hsub, hfind]

/-- Witness for C10_resubmit at a concrete input: an auto-submitted
session with no Submission row rejects a new submit call with the
"Exam already submitted" error. -/
theorem C10_resubmit_witness :
    submitExam { baseState with
        sessions := fun n => if n = 1 then
          some ⟨1, 7, true, true, some 0, 11, 3⟩ else none } 1 7 [] 0
      = .error "Exam already submitted" :=
  (C10_resubmit _ 1 7 ⟨1, 7, true, true, some 0, 11, 3⟩ [] 0 rfl rfl rfl).1 rfl

end ExamMonitor
